import Mathlib

/-!
Verification development for the CSV-to-Moodle-glossary-XML converter
(`index/csv_to_xml.py`).  The converter reads a semicolon-delimited file,
skips the first row, and builds for every remaining row one `ENTRY` element
holding the term, an HTML-wrapped definition and one `ALIAS` per non-empty
comma-separated tag.  The XML tree is embedded as a simple inductive of
tag / optional text / children (attributes are never used by the script),
the CSV reader is abstracted to the row stream it yields, and Python
exceptions are embedded as explicit error values.
-/

namespace CsvToXml

/-- The fragment of `xml.etree.ElementTree.Element` the script uses:
a tag, the optional `.text`, and the list of sub-elements.
The script never sets attributes, so they are not modelled. -/
inductive Element where
  | mk (tag : String) (text : Option String) (children : List Element)

def Element.tag : Element → String
  | .mk t _ _ => t

def Element.text : Element → Option String
  | .mk _ x _ => x

def Element.children : Element → List Element
  | .mk _ _ c => c

/-- The Python exceptions the run of `main` can surface. -/
inductive PyError where
  | fileNotFoundError
  | stopIteration
  | valueError
  | unicodeDecodeError
  | osError
deriving DecidableEq, Repr

/-- Python `str.split(',')` on the character list of the string:
pieces between commas, with empty pieces kept (so `"".split(',') = [""]`). -/
def splitComma : List Char → List (List Char)
  | [] => [[]]
  | c :: cs =>
    if c = ',' then [] :: splitComma cs
    else (c :: (splitComma cs).headI) :: (splitComma cs).tail

/-- The whitespace set of Python's `str.strip()` / `str.isspace()`
(CPython `Py_UNICODE_ISSPACE`): the controls `U+0009`-`U+000D` and
`U+001C`-`U+001F`, the space `U+0020`, next line `U+0085`, no-break space
`U+00A0`, ogham space `U+1680`, the spaces `U+2000`-`U+200A`, the line and
paragraph separators `U+2028`/`U+2029`, and `U+202F`, `U+205F`, `U+3000`. -/
def pyIsSpace (c : Char) : Bool :=
  (0x09 ≤ c.toNat && c.toNat ≤ 0x0D) || (0x1C ≤ c.toNat && c.toNat ≤ 0x1F) ||
  c.toNat = 0x20 || c.toNat = 0x85 || c.toNat = 0xA0 || c.toNat = 0x1680 ||
  (0x2000 ≤ c.toNat && c.toNat ≤ 0x200A) || c.toNat = 0x2028 || c.toNat = 0x2029 ||
  c.toNat = 0x202F || c.toNat = 0x205F || c.toNat = 0x3000

/-- Python `str.strip()` on a character list: drop `pyIsSpace` characters
from both ends. -/
def pyStrip (l : List Char) : List Char :=
  ((l.dropWhile pyIsSpace).reverse.dropWhile pyIsSpace).reverse

/-- `tag.strip()` as a string-to-string function. -/
def strip (s : String) : String :=
  ⟨pyStrip s.data⟩

/-- `[tag.strip() for tag in tags.split(',') if tag.strip()]`:
split the tag field on commas, trim each piece, keep the non-empty ones. -/
def tagList (tags : String) : List String :=
  (((splitComma tags.data).map fun piece => (⟨pyStrip piece⟩ : String))).filter
    fun t => t ≠ ""

/-- `f-string` wrapping of a definition in the fixed HTML paragraph template. -/
def wrapDefinition (definition : String) : String :=
  "<p dir=\"ltr\" style=\"text-align: left;\">" ++ definition ++ "<br/></p>"

/-- One `ALIAS` sub-element: `<ALIAS><NAME>tag_name</NAME></ALIAS>`. -/
def mkAlias (tag_name : String) : Element :=
  .mk "ALIAS" none [.mk "NAME" (some tag_name) []]

/-- The `ENTRY` element built for one row `(concept, definition, tags)`:
concept, HTML-wrapped definition, the six static flag elements, and the
`ALIASES` element with one `ALIAS` per kept tag. -/
def mkEntry (concept definition tags : String) : Element :=
  .mk "ENTRY" none
    [ .mk "CONCEPT" (some concept) []
    , .mk "DEFINITION" (some (wrapDefinition definition)) []
    , .mk "FORMAT" (some "1") []
    , .mk "DEFINITIONTRUST" (some "0") []
    , .mk "USEDYNALINK" (some "0") []
    , .mk "CASESENSITIVE" (some "0") []
    , .mk "FULLMATCH" (some "0") []
    , .mk "TEACHERENTRY" (some "1") []
    , .mk "ALIASES" none ((tagList tags).map mkAlias) ]

/-- The `GLOSSARY` tree: the static `INFO` metadata block, whose last child
`ENTRIES` holds the given entry elements (in the script, `ENTRIES` is a
sub-element of `INFO`). -/
def glossaryOf (entries : List Element) : Element :=
  .mk "GLOSSARY" none
    [ .mk "INFO" none
      [ .mk "NAME" (some "Fogalomtár") []
      , .mk "INTRO" (some "") []
      , .mk "INTROFORMAT" (some "1") []
      , .mk "ALLOWDUPLICATEDENTRIES" (some "0") []
      , .mk "DISPLAYFORMAT" (some "dictionary") []
      , .mk "SHOWSPECIAL" (some "1") []
      , .mk "SHOWALPHABET" (some "1") []
      , .mk "SHOWALL" (some "1") []
      , .mk "ALLOWCOMMENTS" (some "0") []
      , .mk "USEDYNALINK" (some "1") []
      , .mk "DEFAULTAPPROVAL" (some "1") []
      , .mk "GLOBALGLOSSARY" (some "0") []
      , .mk "ENTBYPAGE" (some "10") []
      , .mk "ENTRIES" none entries ] ]

/-- `concept, definition, tags = row`: succeeds exactly on rows of three
fields, any other width raises `ValueError`. -/
def unpackRow : List String → Except PyError (String × String × String)
  | [concept, definition, tags] => .ok (concept, definition, tags)
  | _ => .error .valueError

/-- The `for row in csv_data` loop body applied to the remaining rows. -/
def buildEntries : List (List String) → Except PyError (List Element)
  | [] => .ok []
  | row :: rest => do
    let (concept, definition, tags) ← unpackRow row
    let es ← buildEntries rest
    pure (mkEntry concept definition tags :: es)

/-- `create_xml_structure(csv_data)`: `next(csv_data)` discards the first
row (raising `StopIteration` on an empty stream), then one `ENTRY` is built
per remaining row. -/
def create_xml_structure (csv_data : List (List String)) : Except PyError Element :=
  match csv_data with
  | [] => .error .stopIteration
  | _header :: rows => do
    let es ← buildEntries rows
    pure (glossaryOf es)

/-- Text escaping performed when the document is written out
(minidom `_write_data`: `&`, `<`, `"`, `>` become entities), per character. -/
def writeDataChar : Char → String
  | c =>
    if c = '&' then "&amp;"
    else if c = '<' then "&lt;"
    else if c = '"' then "&quot;"
    else if c = '>' then "&gt;"
    else String.singleton c

def writeDataList : List Char → String
  | [] => ""
  | c :: cs => writeDataChar c ++ writeDataList cs

/-- minidom `_write_data` on a whole string (the chained `str.replace`
calls applied character-wise, which yields the same string). -/
def writeData (s : String) : String :=
  writeDataList s.data

mutual

/-- Serialization of one element as minidom writes it: an element with no
text and no children is written as an empty tag, otherwise the escaped text
followed by the serialized children between the open and close tags.  The
indentation whitespace that `toprettyxml` inserts between elements is
omitted; it never occurs inside a text-carrying element such as
`DEFINITION`. -/
def serialize : Element → String
  | .mk tg tx ch =>
    if (tx.getD "") = "" ∧ ch.isEmpty then "<" ++ tg ++ "/>"
    else "<" ++ tg ++ ">" ++ writeData (tx.getD "") ++ serializeList ch ++ "</" ++ tg ++ ">"

def serializeList : List Element → String
  | [] => ""
  | e :: es => serialize e ++ serializeList es

end

mutual

/-- Number of elements with the given tag in a tree (the element itself
included). -/
def countTag (t : String) : Element → Nat
  | .mk tg _ ch => (if tg = t then 1 else 0) + countTagList t ch

def countTagList (t : String) : List Element → Nat
  | [] => 0
  | e :: es => countTag t e + countTagList t es

end

/-- Python `str.rfind` on a character list: index of the last occurrence,
`-1` when absent. -/
def rfindIdx : List Char → Char → Int
  | [], _ => -1
  | c :: cs, t =>
    if rfindIdx cs t ≥ 0 then rfindIdx cs t + 1
    else if c = t then 0 else -1

/-- `os.path.splitext` for POSIX paths: split at the last dot, provided it
lies after the last path separator and the base name does not consist of
leading dots only. -/
def splitext (p : String) : String × String :=
  if rfindIdx p.data '/' < rfindIdx p.data '.' ∧
      (((p.data.drop (rfindIdx p.data '/' + 1).toNat).take
          (rfindIdx p.data '.' - rfindIdx p.data '/' - 1).toNat).any
        fun c => c ≠ '.') then
    (⟨p.data.take (rfindIdx p.data '.').toNat⟩, ⟨p.data.drop (rfindIdx p.data '.').toNat⟩)
  else (p, "")

/-- The command-line arguments: the input path and the optional output
path (`nargs` makes the second one `None` when absent). -/
structure Args where
  input_csv : String
  output_xml : Option String
deriving DecidableEq, Repr

/-- `if not output_xml_path:` — the given output path is used only when it
is truthy, i.e. a non-empty string; otherwise the input path with its
extension split off and `.xml` appended. -/
def resolveOutputPath (input_csv : String) (output_xml : Option String) : String :=
  match output_xml with
  | some p => if p = "" then (splitext input_csv).1 ++ ".xml" else p
  | none => (splitext input_csv).1 ++ ".xml"

/-- The serialized document as written: the `toprettyxml` XML declaration
followed by the tree (inter-element indentation omitted, see `serialize`). -/
def prettyOutput (g : Element) : String :=
  "<?xml version=\"1.0\" encoding=\"UTF-8\"?>\n" ++ serialize g

/-- How the run of `main` ended: a normal `return` (the script then exits
with status 0) or an uncaught exception (abnormal termination). -/
inductive Termination where
  | exited (code : Nat)
  | uncaught (e : PyError)
deriving DecidableEq, Repr

/-- Observable outcome of a run of `main`: the lines printed, the output
file written (path and contents), and how the process ended. -/
structure ProcState where
  printed : List String
  written : Option (String × String)
  term : Termination
deriving DecidableEq, Repr

/-- The body of the `try` block of `main`.  `openInput` abstracts
`open(input)` plus the CSV reader: `.error e` when opening or decoding the
input raises `e`, `.ok rows` for the row stream it yields.  `openOutput`
abstracts `open(output, 'w')` and the write: `.error e` when that raises
`e` (e.g. `FileNotFoundError` for a missing output directory).  On success
it returns the file written and the status line printed. -/
def tryBody (args : Args) (openInput : Except PyError (List (List String)))
    (openOutput : Except PyError Unit) :
    Except PyError ((String × String) × String) :=
  let output_xml_path := resolveOutputPath args.input_csv args.output_xml
  do
    let rows ← openInput
    let xml_data ← create_xml_structure rows
    let _ ← openOutput
    pure ((output_xml_path, prettyOutput xml_data),
      "Successfully converted '" ++ args.input_csv ++ "' to '" ++ output_xml_path ++ "'")

/-- `main`: run the `try` body; `except FileNotFoundError` prints the
error message naming the input path and returns normally; any other
exception propagates and terminates the process abnormally. -/
def mainRun (args : Args) (openInput : Except PyError (List (List String)))
    (openOutput : Except PyError Unit) : ProcState :=
  match tryBody args openInput openOutput with
  | .ok (written, msg) =>
    { printed := [msg], written := some written, term := .exited 0 }
  | .error .fileNotFoundError =>
    { printed := ["Error: Input file not found at '" ++ args.input_csv ++ "'"],
      written := none, term := .exited 0 }
  | .error e =>
    { printed := [], written := none, term := .uncaught e }

instance : Inhabited Element := ⟨.mk "" none []⟩

/-- A three-field row as the CSV reader yields it. -/
def rowOfTriple : String × String × String → List String
  | (c, d, t) => [c, d, t]

/-- The entry element a three-field row produces. -/
def entryOfTriple : String × String × String → Element
  | (c, d, t) => mkEntry c d t

/-- The entry list of a glossary tree: the children of the `ENTRIES`
element inside the `INFO` block. -/
def entriesOf (g : Element) : List Element :=
  ((g.children.headI.children.filter fun e => e.tag = "ENTRIES").headI).children

theorem buildEntries_map (rows : List (String × String × String)) :
    buildEntries (rows.map rowOfTriple) = .ok (rows.map entryOfTriple) := by
  induction rows with
  | nil => rfl
  | cons r rs ih =>
    obtain ⟨c, d, t⟩ := r
    simp [rowOfTriple, buildEntries, unpackRow, ih, entryOfTriple, Bind.bind, Except.bind, pure, Except.pure]

theorem entriesOf_glossaryOf (es : List Element) : entriesOf (glossaryOf es) = es := by
  simp [entriesOf, glossaryOf, Element.children, Element.tag]

theorem countTag_glossaryOf (es : List Element) :
    countTag "ENTRY" (glossaryOf es) = countTagList "ENTRY" es := by
  simp [glossaryOf, countTag, countTagList]

theorem countTag_entry_mkAlias (s : String) : countTag "ENTRY" (mkAlias s) = 0 := by
  simp [mkAlias, countTag, countTagList]

theorem countTagList_entry_aliases (l : List String) :
    countTagList "ENTRY" (l.map mkAlias) = 0 := by
  induction l with
  | nil => simp [countTagList]
  | cons x xs ih => simp [List.map, countTagList, countTag_entry_mkAlias, ih]

theorem countTag_mkEntry (c d t : String) : countTag "ENTRY" (mkEntry c d t) = 1 := by
  simp [mkEntry, countTag, countTagList, countTagList_entry_aliases]

theorem countTagList_entry_map (rows : List (String × String × String)) :
    countTagList "ENTRY" (rows.map entryOfTriple) = rows.length := by
  induction rows with
  | nil => simp [countTagList]
  | cons r rs ih =>
    obtain ⟨c, d, t⟩ := r
    simp [List.map, countTagList, entryOfTriple, countTag_mkEntry, ih, Nat.add_comm]

/-- Claim C1: an input with a header row and N data rows yields a glossary
tree whose `ENTRIES` element holds exactly the N entry elements of those
rows, in input order, duplicates kept; the tree contains exactly N `ENTRY`
elements in total. -/
theorem C1_entry_per_row (header : List String) (rows : List (String × String × String)) :
    ∃ g, create_xml_structure (header :: rows.map rowOfTriple) = .ok g ∧
      entriesOf g = rows.map entryOfTriple ∧
      countTag "ENTRY" g = rows.length := by
  refine ⟨glossaryOf (rows.map entryOfTriple), ?_, entriesOf_glossaryOf _, ?_⟩
  · simp [create_xml_structure, buildEntries_map rows, Bind.bind, Except.bind, pure, Except.pure]
  · rw [countTag_glossaryOf]
    exact countTagList_entry_map rows

/-- Claim C3: the `DEFINITION` child of every entry is unique and its text
is exactly the row's definition wrapped in the fixed HTML paragraph
template, the original text unchanged inside it. -/
theorem C3_definition_template (concept definition tags : String) :
    ((mkEntry concept definition tags).children.filter fun e => e.tag = "DEFINITION") =
      [.mk "DEFINITION"
        (some ("<p dir=\"ltr\" style=\"text-align: left;\">" ++ definition ++ "<br/></p>"))
        []] :=
  rfl

/-- Claim C6: the first row of the input is discarded whatever its content:
replacing it changes nothing, and an input whose only row is a well-formed
data row yields a glossary with zero `ENTRY` elements. -/
theorem C6_header_skipped :
    (∀ (r r' : List String) (rows : List (List String)),
      create_xml_structure (r :: rows) = create_xml_structure (r' :: rows)) ∧
    (∀ row : List String, ∃ g, create_xml_structure [row] = .ok g ∧
      countTag "ENTRY" g = 0) := by
  refine ⟨fun r r' rows => rfl, fun row => ⟨glossaryOf [], rfl, ?_⟩⟩
  rw [countTag_glossaryOf]
  rfl

theorem splitComma_ne_nil (l : List Char) : splitComma l ≠ [] := by
  cases l with
  | nil => simp [splitComma]
  | cons c cs =>
    by_cases h : c = ','
    · simp [splitComma, h]
    · simp [splitComma, h]

theorem splitComma_mem_ws (l : List Char) (hl : ∀ ch ∈ l, ch = ',' ∨ pyIsSpace ch) :
    ∀ p ∈ splitComma l, ∀ ch ∈ p, pyIsSpace ch := by
  induction l with
  | nil =>
    intro p hp
    simp [splitComma] at hp
    subst hp
    simp
  | cons c cs ih =>
    have hcs : ∀ ch ∈ cs, ch = ',' ∨ pyIsSpace ch :=
      fun ch h => hl ch (List.mem_cons_of_mem _ h)
    intro p hp
    by_cases h : c = ','
    · simp [splitComma, h] at hp
      rcases hp with hp | hp
      · subst hp; simp
      · exact ih hcs p hp
    · have hc : pyIsSpace c := by
        rcases hl c (List.mem_cons_self c cs) with h1 | h1
        · exact absurd h1 h
        · exact h1
      simp [splitComma, h] at hp
      rcases hp with hp | hp
      · subst hp
        intro ch hch
        rcases List.mem_cons.mp hch with rfl | hch
        · exact hc
        · have hmem : (splitComma cs).headI ∈ splitComma cs := by
            cases hsc : splitComma cs with
            | nil => exact absurd hsc (splitComma_ne_nil cs)
            | cons a as => exact List.mem_cons_self a as
          exact ih hcs _ hmem ch hch
      · exact ih hcs p (List.mem_of_mem_tail hp)

theorem pyStrip_ws (l : List Char) (h : ∀ ch ∈ l, pyIsSpace ch) : pyStrip l = [] := by
  have hd : l.dropWhile pyIsSpace = [] := List.dropWhile_eq_nil_iff.mpr h
  simp [pyStrip, hd]

theorem tagList_ws (t : String) (h : ∀ ch ∈ t.data, ch = ',' ∨ pyIsSpace ch) :
    tagList t = [] := by
  apply List.filter_eq_nil_iff.mpr
  intro s hs
  simp only [List.mem_map] at hs
  obtain ⟨p, hp, rfl⟩ := hs
  have hws := splitComma_mem_ws t.data h p hp
  simp [pyStrip_ws p hws]

theorem countTag_alias_mkAlias (s : String) : countTag "ALIAS" (mkAlias s) = 1 := by
  simp [mkAlias, countTag, countTagList]

theorem countTagList_alias_map (l : List String) :
    countTagList "ALIAS" (l.map mkAlias) = l.length := by
  induction l with
  | nil => simp [countTagList]
  | cons x xs ih => simp [List.map, countTagList, countTag_alias_mkAlias, ih, Nat.add_comm]

theorem countTag_alias_mkEntry (c d t : String) :
    countTag "ALIAS" (mkEntry c d t) = (tagList t).length := by
  simp [mkEntry, countTag, countTagList, countTagList_alias_map]

/-- Claim C2: the entry of a row holds one `ALIASES` element whose
children are exactly one `ALIAS` (wrapping one `NAME`) per token obtained
by splitting the tag field on commas, trimming, and discarding empties;
the number of `ALIAS` elements in the entry equals the token count; and a
tag field made of commas and whitespace only yields no alias at all. -/
theorem C2_alias_tokens (c d t t' : String)
    (ht' : ∀ ch ∈ t'.data, ch = ',' ∨ pyIsSpace ch) :
    ((mkEntry c d t).children.filter fun e => e.tag = "ALIASES") =
      [.mk "ALIASES" none ((tagList t).map mkAlias)] ∧
    countTag "ALIAS" (mkEntry c d t) = (tagList t).length ∧
    (∀ s, mkAlias s = .mk "ALIAS" none [.mk "NAME" (some s) []]) ∧
    tagList t' = [] ∧
    countTag "ALIAS" (mkEntry c d t') = 0 := by
  refine ⟨rfl, countTag_alias_mkEntry c d t, fun s => rfl, tagList_ws t' ht', ?_⟩
  rw [countTag_alias_mkEntry c d t', tagList_ws t' ht']
  rfl

/-- Witness for C2 at a concrete row: tag field `"animal, pet"` and a
comma-and-whitespace-only tag field holding a space, a form feed `\x0c`
and a no-break space `\xa0` between commas. -/
theorem C2_alias_tokens_witness :
    ((mkEntry "Cat" "A small animal" "animal, pet").children.filter
        fun e => e.tag = "ALIASES") =
      [.mk "ALIASES" none ((tagList "animal, pet").map mkAlias)] ∧
    countTag "ALIAS" (mkEntry "Cat" "A small animal" "animal, pet") =
      (tagList "animal, pet").length ∧
    (∀ s, mkAlias s = .mk "ALIAS" none [.mk "NAME" (some s) []]) ∧
    tagList " ,\x0c,\xa0, " = [] ∧
    countTag "ALIAS" (mkEntry "Cat" "A small animal" " ,\x0c,\xa0, ") = 0 :=
  C2_alias_tokens "Cat" "A small animal" "animal, pet" " ,\x0c,\xa0, " (by decide)

theorem writeDataList_append (a b : List Char) :
    writeDataList (a ++ b) = writeDataList a ++ writeDataList b := by
  induction a with
  | nil => simp [writeDataList]
  | cons c cs ih => simp [writeDataList, ih, String.append_assoc]

theorem writeData_append (a b : String) :
    writeData (a ++ b) = writeData a ++ writeData b := by
  simp only [writeData, String.data_append, writeDataList_append]

theorem writeDataChar_no_lt (c : Char) : ∀ ch ∈ (writeDataChar c).data, ch ≠ '<' := by
  intro ch hch
  unfold writeDataChar at hch
  by_cases h1 : c = '&'
  · rw [if_pos h1] at hch
    rw [show ("&amp;" : String).data = ['&', 'a', 'm', 'p', ';'] from rfl] at hch
    simp only [List.mem_cons, List.not_mem_nil, or_false] at hch
    rcases hch with rfl | rfl | rfl | rfl | rfl <;> decide
  · rw [if_neg h1] at hch
    by_cases h2 : c = '<'
    · rw [if_pos h2] at hch
      rw [show ("&lt;" : String).data = ['&', 'l', 't', ';'] from rfl] at hch
      simp only [List.mem_cons, List.not_mem_nil, or_false] at hch
      rcases hch with rfl | rfl | rfl | rfl <;> decide
    · rw [if_neg h2] at hch
      by_cases h3 : c = '"'
      · rw [if_pos h3] at hch
        rw [show ("&quot;" : String).data = ['&', 'q', 'u', 'o', 't', ';'] from rfl] at hch
        simp only [List.mem_cons, List.not_mem_nil, or_false] at hch
        rcases hch with rfl | rfl | rfl | rfl | rfl | rfl <;> decide
      · rw [if_neg h3] at hch
        by_cases h4 : c = '>'
        · rw [if_pos h4] at hch
          rw [show ("&gt;" : String).data = ['&', 'g', 't', ';'] from rfl] at hch
          simp only [List.mem_cons, List.not_mem_nil, or_false] at hch
          rcases hch with rfl | rfl | rfl | rfl <;> decide
        · rw [if_neg h4] at hch
          rw [show (String.singleton c).data = [c] from rfl] at hch
          simp only [List.mem_cons, List.not_mem_nil, or_false] at hch
          subst hch
          exact h2

theorem writeData_no_lt (s : String) : ∀ ch ∈ (writeData s).data, ch ≠ '<' := by
  unfold writeData
  induction s.data with
  | nil => simp [writeDataList]
  | cons c cs ih =>
    intro ch hch
    rw [show writeDataList (c :: cs) = writeDataChar c ++ writeDataList cs from rfl,
      String.data_append] at hch
    rcases List.mem_append.mp hch with h | h
    · exact writeDataChar_no_lt c ch h
    · exact ih ch h

theorem wrapDefinition_ne_empty (d : String) : wrapDefinition d ≠ "" := by
  intro h
  have hd := congrArg String.data h
  simp [wrapDefinition, String.data_append] at hd

theorem serialize_text_elem (tg tx : String) (h : ¬ tx = "") :
    serialize (.mk tg (some tx) []) = "<" ++ tg ++ ">" ++ writeData tx ++ "</" ++ tg ++ ">" := by
  rw [serialize]
  simp [h, serializeList]

/-- Claim C9: every entry has a single `DEFINITION` element; it has no
child elements, and in the serialized output it is written as character
data escaped by `writeData`, so the HTML wrapper appears with its angle
brackets as entities (`&lt;p dir=&quot;ltr&quot; ...`) and no `<` occurs
in the escaped text. -/
theorem C9_definition_escaped (c d t : String) :
    ((mkEntry c d t).children.filter fun e => e.tag = "DEFINITION") =
      [.mk "DEFINITION" (some (wrapDefinition d)) []] ∧
    (Element.mk "DEFINITION" (some (wrapDefinition d)) []).children = [] ∧
    serialize (.mk "DEFINITION" (some (wrapDefinition d)) []) =
      "<DEFINITION>" ++ writeData (wrapDefinition d) ++ "</DEFINITION>" ∧
    writeData (wrapDefinition d) =
      "&lt;p dir=&quot;ltr&quot; style=&quot;text-align: left;&quot;&gt;" ++ writeData d ++
        "&lt;br/&gt;&lt;/p&gt;" ∧
    ∀ ch ∈ (writeData (wrapDefinition d)).data, ch ≠ '<' := by
  refine ⟨rfl, rfl, ?_, ?_, writeData_no_lt _⟩
  · rw [serialize_text_elem "DEFINITION" (wrapDefinition d) (wrapDefinition_ne_empty d)]
    simp only [String.append_assoc]
    rfl
  · have h1 : writeData "<p dir=\"ltr\" style=\"text-align: left;\">" =
        "&lt;p dir=&quot;ltr&quot; style=&quot;text-align: left;&quot;&gt;" := rfl
    have h2 : writeData "<br/></p>" = "&lt;br/&gt;&lt;/p&gt;" := rfl
    rw [wrapDefinition, writeData_append, writeData_append, h1, h2]

/-- Claim C4: when opening the input file raises `FileNotFoundError`, the
program prints the documented message naming the input path, writes no
output file, and returns normally. -/
theorem C4_missing_input (args : Args) (openOutput : Except PyError Unit) :
    mainRun args (.error .fileNotFoundError) openOutput =
      { printed := ["Error: Input file not found at '" ++ args.input_csv ++ "'"],
        written := none, term := .exited 0 } :=
  rfl

/-- Claim C8: on an existing but completely empty input file (the CSV
reader yields no rows) the header-skipping `next` raises `StopIteration`,
which is not caught: the process terminates abnormally, nothing is printed
and no output file is written. -/
theorem C8_empty_input (args : Args) (openOutput : Except PyError Unit) :
    create_xml_structure [] = .error .stopIteration ∧
    mainRun args (.ok []) openOutput =
      { printed := [], written := none, term := .uncaught .stopIteration } :=
  ⟨rfl, rfl⟩

/-- Claim C10: a run with a missing input file ends with the same exit
status 0 as a successful conversion — the handled error is
indistinguishable from success by exit code. -/
theorem C10_exit_status (args args2 : Args) (rows : List (List String)) (g : Element)
    (h : create_xml_structure rows = .ok g) (openOutput2 : Except PyError Unit) :
    (mainRun args (.ok rows) (.ok ())).term = .exited 0 ∧
    (mainRun args2 (.error .fileNotFoundError) openOutput2).term = .exited 0 := by
  constructor
  · simp [mainRun, tryBody, h, Bind.bind, Except.bind, pure, Except.pure]
  · rfl

/-- Witness for C10: a one-row input converts successfully with exit
status 0, and a missing-file run also ends with exit status 0. -/
theorem C10_exit_status_witness :
    (mainRun ⟨"in.csv", none⟩ (.ok [["a", "b", "c"]]) (.ok ())).term = .exited 0 ∧
    (mainRun ⟨"in.csv", none⟩ (.error .fileNotFoundError) (.ok ())).term = .exited 0 :=
  C10_exit_status ⟨"in.csv", none⟩ ⟨"in.csv", none⟩ [["a", "b", "c"]] (glossaryOf []) rfl
    (.ok ())

/-- Counterexample to claim C5 as stated: a failure while writing the
output file is not always unhandled — when opening the output path raises
`FileNotFoundError` (e.g. its directory does not exist), the
`except FileNotFoundError` clause catches it, the program prints the
missing-input message and terminates normally. -/
theorem C5_counterexample :
    mainRun ⟨"in.csv", some "missing_dir/out.xml"⟩
        (.ok [["term", "def", "tags"], ["Cat", "A small animal", "animal, pet"]])
        (.error .fileNotFoundError) =
      { printed := ["Error: Input file not found at 'in.csv'"],
        written := none, term := .exited 0 } :=
  rfl

/-- Claim C5 (amended): any exception raised in the `try` block is handled
exactly when it is a `FileNotFoundError` — whatever raised it, including a
write-stage `FileNotFoundError`; every other failure (malformed row,
encoding error, other write failures) propagates uncaught with no output
written. -/
theorem C5_error_propagation (args : Args) (openInput : Except PyError (List (List String)))
    (openOutput : Except PyError Unit) (e : PyError)
    (hb : tryBody args openInput openOutput = .error e) :
    mainRun args openInput openOutput =
      if e = .fileNotFoundError then
        { printed := ["Error: Input file not found at '" ++ args.input_csv ++ "'"],
          written := none, term := .exited 0 }
      else { printed := [], written := none, term := .uncaught e } := by
  unfold mainRun
  rw [hb]
  cases e <;> rfl

/-- Witness for the amended C5: a malformed second row (two fields) makes
the run terminate abnormally with an uncaught `ValueError` and no output
file. -/
theorem C5_error_propagation_witness :
    mainRun ⟨"in.csv", none⟩ (.ok [["h", "h", "h"], ["only", "two"]]) (.ok ()) =
      { printed := [], written := none, term := .uncaught .valueError } := by
  have h := C5_error_propagation ⟨"in.csv", none⟩ (.ok [["h", "h", "h"], ["only", "two"]])
    (.ok ()) .valueError rfl
  simpa using h

theorem neg_one_le_rfindIdx (l : List Char) (t : Char) : -1 ≤ rfindIdx l t := by
  cases l with
  | nil => simp [rfindIdx]
  | cons c cs =>
    simp only [rfindIdx]
    split
    · omega
    · split <;> omega

theorem rfindIdx_not_mem (l : List Char) (t : Char) (h : t ∉ l) : rfindIdx l t = -1 := by
  induction l with
  | nil => rfl
  | cons c cs ih =>
    have hcs : t ∉ cs := fun hm => h (List.mem_cons_of_mem _ hm)
    have hc : ¬ c = t := fun hc => h (hc ▸ List.mem_cons_self c cs)
    simp [rfindIdx, ih hcs, hc]

theorem rfindIdx_append (a b : List Char) (t : Char) :
    rfindIdx (a ++ b) t =
      if rfindIdx b t ≥ 0 then a.length + rfindIdx b t else rfindIdx a t := by
  induction a with
  | nil =>
    simp only [List.nil_append, List.length_nil, Nat.cast_zero, zero_add]
    split
    · rfl
    · have h1 := neg_one_le_rfindIdx b t
      have h2 : rfindIdx ([] : List Char) t = -1 := rfl
      omega
  | cons c cs ih =>
    by_cases hb : rfindIdx b t ≥ 0
    · have h1 : rfindIdx (cs ++ b) t = ↑cs.length + rfindIdx b t := by rw [ih, if_pos hb]
      have h2 : rfindIdx (cs ++ b) t ≥ 0 := by omega
      rw [List.cons_append, rfindIdx, if_pos h2, h1, if_pos hb]
      simp only [List.length_cons]
      push_cast
      omega
    · have h1 : rfindIdx (cs ++ b) t = rfindIdx cs t := by rw [ih, if_neg hb]
      rw [List.cons_append, rfindIdx, h1, if_neg hb, rfindIdx]

theorem string_mk_data (s : String) : String.mk s.data = s := by
  cases s
  rfl

theorem splitext_concat (base ext : String)
    (hbase : ∃ c ∈ base.data, c ≠ '.') (hbs : '/' ∉ base.data)
    (hed : '.' ∉ ext.data) (hes : '/' ∉ ext.data) :
    splitext (base ++ "." ++ ext) = (base, "." ++ ext) := by
  have hdata : (base ++ "." ++ ext).data = base.data ++ '.' :: ext.data := by
    simp [String.data_append]
  have hdotExt : rfindIdx ('.' :: ext.data) '.' = 0 := by
    rw [rfindIdx, rfindIdx_not_mem _ _ hed]
    rfl
  have hdot : rfindIdx (base.data ++ '.' :: ext.data) '.' = ↑base.data.length := by
    rw [rfindIdx_append, hdotExt, if_pos (by omega)]
    omega
  have hsepExt : rfindIdx ('.' :: ext.data) '/' = -1 := by
    apply rfindIdx_not_mem
    simp only [List.mem_cons]
    rintro (h | h)
    · exact absurd h.symm (by decide)
    · exact hes h
  have hsep : rfindIdx (base.data ++ '.' :: ext.data) '/' = -1 := by
    rw [rfindIdx_append, hsepExt, if_neg (by omega)]
    exact rfindIdx_not_mem _ _ hbs
  have hcond : (-1 : Int) < ↑base.data.length ∧
      (((base.data ++ '.' :: ext.data).drop ((-1 : Int) + 1).toNat).take
          ((↑base.data.length : Int) - (-1) - 1).toNat).any (fun c => c ≠ '.') := by
    constructor
    · omega
    · have h0 : ((-1 : Int) + 1).toNat = 0 := rfl
      have h1 : ((↑base.data.length : Int) - (-1) - 1).toNat = base.data.length := by omega
      rw [h0, h1, List.drop_zero, List.take_left]
      obtain ⟨c, hc, hne⟩ := hbase
      exact List.any_eq_true.mpr ⟨c, hc, by simpa using hne⟩
  unfold splitext
  rw [hdata, hdot, hsep, if_pos hcond]
  have htake : (base.data ++ '.' :: ext.data).take ((↑base.data.length : Int)).toNat =
      base.data := by
    rw [Int.toNat_natCast, List.take_left]
  have hdrop : (base.data ++ '.' :: ext.data).drop ((↑base.data.length : Int)).toNat =
      '.' :: ext.data := by
    rw [Int.toNat_natCast, List.drop_left]
  rw [htake, hdrop]
  refine Prod.ext ?_ ?_
  · exact string_mk_data base
  · show String.mk ('.' :: ext.data) = "." ++ ext
    have : ("." ++ ext).data = '.' :: ext.data := by simp [String.data_append]
    rw [← this, string_mk_data]

/-- Counterexample to claim C7 as stated: an explicitly given output path
is not always used as-is — with the empty string given as the output
argument, the `if not output_xml_path` truthiness test makes the program
fall back to the default and write `input.xml` instead. -/
theorem C7_counterexample :
    (mainRun ⟨"input.csv", some ""⟩ (.ok [["h", "h", "h"]]) (.ok ())).written =
      some ("input.xml", prettyOutput (glossaryOf [])) ∧ ("input.xml" : String) ≠ "" :=
  ⟨rfl, by decide⟩

/-- Claim C7 (amended): a non-empty given output path is used as-is; when
the output argument is absent or the empty string, the output path is the
input path with its `splitext` extension dropped and `.xml` appended — in
particular, for an input written `base.ext` (plain base name, extension
without dots or separators) the output is `base.xml`. -/
theorem C7_output_path (i o base ext : String) (ho : o ≠ "")
    (hbase : ∃ c ∈ base.data, c ≠ '.') (hbs : '/' ∉ base.data)
    (hed : '.' ∉ ext.data) (hes : '/' ∉ ext.data) :
    resolveOutputPath i (some o) = o ∧
    resolveOutputPath i none = (splitext i).1 ++ ".xml" ∧
    resolveOutputPath i (some "") = (splitext i).1 ++ ".xml" ∧
    resolveOutputPath (base ++ "." ++ ext) none = base ++ ".xml" := by
  refine ⟨by simp [resolveOutputPath, ho], rfl, rfl, ?_⟩
  simp [resolveOutputPath, splitext_concat base ext hbase hbs hed hes]

/-- Witness for the amended C7 at concrete paths. -/
theorem C7_output_path_witness :
    resolveOutputPath "a.b" (some "out.xml") = "out.xml" ∧
    resolveOutputPath "a.b" none = (splitext "a.b").1 ++ ".xml" ∧
    resolveOutputPath "a.b" (some "") = (splitext "a.b").1 ++ ".xml" ∧
    resolveOutputPath ("input" ++ "." ++ "csv") none = "input" ++ ".xml" :=
  C7_output_path "a.b" "out.xml" "input" "csv" (by decide) (by decide) (by decide)
    (by decide) (by decide)

end CsvToXml
